import Mathlib

/-!
Shallow embedding of MegEngine's operator-dispatch layer
(`imperative/python/megengine/core/tensor/tensor_wrapper.py`).

Tensors are modelled concretely: a shape (list of extents), a dtype tag and a
flat data list of integers (boolean elements are represented as 0/1; the file
models element values as integers, floating-point payloads being out of scope
for the dispatch logic under study).  Each dispatch function returns the
`Except`-style result of the Python function together with the list of
primitive operations (`apply(op, ...)` calls) it issued, so that claims about
*which* primitive is invoked can be stated and proved.
-/

namespace TensorWrapperSpec

/-- Element dtypes that matter to the dispatch layer: the boolean guard of the
logical operators only distinguishes `np.bool_` from everything else. -/
inductive DType where
  | bool_
  | int32
  | float32
  deriving DecidableEq, Repr

/-- A concrete tensor: shape, dtype and row-major flat data. -/
structure Tensor where
  shape : List Nat
  dtype : DType
  data : List Int
  deriving DecidableEq, Repr

instance : Inhabited Tensor := ⟨⟨[], .int32, []⟩⟩

/-- `self.size` = `np.prod(self.shape).item()` (empty shape gives 1). -/
def Tensor.size (t : Tensor) : Nat := t.shape.prod

/-- `self.ndim` = `len(self.shape)`. -/
def Tensor.ndim (t : Tensor) : Nat := t.shape.length

/-- Elemwise modes of `builtin.Elemwise` referenced by the mixin's dispatch
table.  `NEQ`, `GT` and `GEQ` are listed so that "no dedicated not-equal /
greater-than primitive is invoked" is a statement about a non-empty
possibility. -/
inductive ElwiseMode where
  | ADD | SUB | MUL | NEGATE | ABS
  | EQ | NEQ | LT | LEQ | GT | GEQ
  | AND | OR | XOR | NOT
  deriving DecidableEq, Repr

/-- Reduction modes of `builtin.Reduce`. -/
inductive ReduceMode where
  | SUM | PRODUCT | MIN | MAX | MEAN
  deriving DecidableEq, Repr

/-- One primitive-operation invocation (`apply(op, ...)`), as recorded in a
trace: the operation descriptor that was constructed for the call. -/
inductive PrimOp where
  | elemwise (mode : ElwiseMode)
  | matrixMul
  | reduce (mode : ReduceMode) (axis : Nat)
  | reshape (unspec : Option Nat)
  | broadcast
  | dimshuffle (axes : List Nat)
  | const (shape : List Int)
  deriving DecidableEq, Repr

/-- Errors raised by the dispatch layer, structured so that the payload of
each constructor is exactly the information interpolated into the Python
error message. -/
inductive Err where
  /-- `ValueError("expect shape[{i}] >= -1, got {s}")` -/
  | badShapeValue (i : Nat) (s : Int)
  /-- `ValueError("multiple -1 in shape: {i} & {j}")` -/
  | multipleNegOne (i j : Nat)
  /-- `TypeError("{mode} requires a bool tensor")` -/
  | boolUnaryRequired (mode : ElwiseMode)
  /-- `TypeError("{mode} requires 2 bool tensors")` -/
  | boolBinaryRequired (mode : ElwiseMode)
  /-- `raise NotImplementedError` -/
  | notImplementedErr
  /-- failed `assert self.size == 1` in `item()` -/
  | scalarRequired
  /-- `TypeError("ndim is 0")` in `__len__` -/
  | zeroRank
  /-- failed `assert data is not None` in `TensorWrapper.__init__` -/
  | noneNotValid
  /-- a primitive kernel rejected its operands (e.g. shape mismatch);
  raised by the execution engine, not by this layer's validation -/
  | kernelFailure
  deriving DecidableEq, Repr

/-- The reshape-shape validation errors of `_reshape` (spec: ValidationError). -/
def Err.isValidation : Err → Bool
  | .badShapeValue _ _ => true
  | .multipleNegOne _ _ => true
  | _ => false

/-! ### `_reshape` -/

/-- The validation loop of `_reshape`:

```python
unspec_axis = None
for i, s in enumerate(shape):
    if s < 0:
        if s != -1:
            raise ValueError("expect shape[{}] >= -1, got {}".format(i, s))
        if unspec_axis is not None:
            raise ValueError("multiple -1 in shape: {} & {}".format(unspec_axis, i))
        unspec_axis = i
```

`i` is the index of the current entry, `u` the `unspec_axis` accumulator. -/
def validateShape : List Int → Nat → Option Nat → Except Err (Option Nat)
  | [], _, u => .ok u
  | s :: rest, i, u =>
    if s < 0 then
      if s ≠ -1 then .error (.badShapeValue i s)
      else
        match u with
        | some j => .error (.multipleNegOne j i)
        | none => validateShape rest (i + 1) (some i)
    else validateShape rest (i + 1) u

/-- Helper for the reshape kernel: the target shape with the entry at the
inferred axis replaced by the inferred extent, all others taken as naturals. -/
def resolveShape : List Int → Nat → Nat → List Nat
  | [], _, _ => []
  | _ :: rest, 0, inferred => inferred :: rest.map Int.toNat
  | s :: rest, i + 1, inferred => s.toNat :: resolveShape rest i inferred

/-- The primitive `Reshape` kernel (external collaborator, executed by
`apply`): with no inferred axis the target extents must multiply to the input
size; with inferred axis `i` the remaining extents must divide the input size
and the quotient is filled in at `i`.  The flat data is reinterpreted, never
changed. -/
def reshapeKernel (x : Tensor) (tgt : List Int) : Option Nat → Except Err Tensor
  | none =>
      if (tgt.map Int.toNat).prod = x.size then
        .ok ⟨tgt.map Int.toNat, x.dtype, x.data⟩
      else .error .kernelFailure
  | some i =>
      let known := ((tgt.eraseIdx i).map Int.toNat).prod
      if known ≠ 0 ∧ x.size % known = 0 then
        .ok ⟨resolveShape tgt i (x.size / known), x.dtype, x.data⟩
      else .error .kernelFailure

/-- `_reshape(x, shape)`: validate the target shape, then embed it as a
constant tensor (`Const`) and apply a single `builtin.Reshape`, parameterized
by `unspec_axis` exactly when a `-1` was seen.  Returns the result together
with the trace of primitive-operation invocations. -/
def _reshape (x : Tensor) (shape : List Int) : Except Err Tensor × List PrimOp :=
  match validateShape shape 0 none with
  | .error e => (.error e, [])
  | .ok u => (reshapeKernel x shape u, [.const shape, .reshape u])

/-- `self.flatten()` = `self.reshape(-1)`. -/
def Tensor.flatten (t : Tensor) : Except Err Tensor × List PrimOp :=
  _reshape t [-1]

/-! ### Elementwise primitives (`_elwise`) -/

/-- Result element type of a binary `Elemwise` op: the engine's promotion of
the operand dtypes (modelled as the left operand's dtype; comparison results
are forced to bool afterwards by `.astype("bool")` in the mixin, so only the
bool/non-bool distinction is ever observed). -/
def promote (a _b : DType) : DType := a

/-- Truth value of an integer element (booleans are stored as 0/1). -/
def toBit (v : Int) : Int := if v = 0 then 0 else 1

/-- Kernel of a binary `builtin.Elemwise` (external collaborator): requires
equal shapes and combines the flat data pointwise. -/
def elwiseBinKernel (mode : ElwiseMode) (a b : Tensor) : Except Err Tensor :=
  if a.shape = b.shape then
    let f : Int → Int → Int :=
      match mode with
      | .ADD => (· + ·)
      | .SUB => (· - ·)
      | .MUL => (· * ·)
      | .EQ => fun x y => if x = y then 1 else 0
      | .NEQ => fun x y => if x = y then 0 else 1
      | .LT => fun x y => if x < y then 1 else 0
      | .LEQ => fun x y => if x ≤ y then 1 else 0
      | .GT => fun x y => if y < x then 1 else 0
      | .GEQ => fun x y => if y ≤ x then 1 else 0
      | .AND => fun x y => toBit x * toBit y
      | .OR => fun x y => toBit (toBit x + toBit y)
      | .XOR => fun x y => toBit ((toBit x + toBit y) % 2)
      | _ => fun x _ => x
    .ok ⟨a.shape, promote a.dtype b.dtype, List.zipWith f a.data b.data⟩
  else .error .kernelFailure

/-- Kernel of a unary `builtin.Elemwise` (external collaborator). -/
def elwiseUnKernel (mode : ElwiseMode) (a : Tensor) : Except Err Tensor :=
  let f : Int → Int :=
    match mode with
    | .NEGATE => (- ·)
    | .ABS => fun x => |x|
    | .NOT => fun x => if x = 0 then 1 else 0
    | _ => fun x => x
  .ok ⟨a.shape, (if mode = .NOT then .bool_ else a.dtype), a.data.map f⟩

/-- `_elwise(a, b, mode=mode)`: one `apply` of a binary `Elemwise`. -/
def _elwise2 (a b : Tensor) (mode : ElwiseMode) : Except Err Tensor × List PrimOp :=
  (elwiseBinKernel mode a b, [.elemwise mode])

/-- `_elwise(a, mode=mode)`: one `apply` of a unary `Elemwise`. -/
def _elwise1 (a : Tensor) (mode : ElwiseMode) : Except Err Tensor × List PrimOp :=
  (elwiseUnKernel mode a, [.elemwise mode])

/-- `utils.astype(self, dtype)` (external collaborator): retags the dtype;
conversion to bool maps every element to its truth bit. -/
def astype (t : Tensor) (d : DType) : Tensor :=
  ⟨t.shape, d, if d = .bool_ then t.data.map toBit else t.data⟩

/-! ### Comparison operators of `ArrayMethodMixin` -/

/-- `__lt__ = lambda self, value: _elwise(self, value, mode="LT").astype("bool")`. -/
def __lt__ (self value : Tensor) : Except Err Tensor × List PrimOp :=
  let (r, t) := _elwise2 self value .LT
  (r.map (astype · .bool_), t)

/-- `__le__ = lambda self, value: _elwise(self, value, mode="LEQ").astype("bool")`. -/
def __le__ (self value : Tensor) : Except Err Tensor × List PrimOp :=
  let (r, t) := _elwise2 self value .LEQ
  (r.map (astype · .bool_), t)

/-- `__gt__ = lambda self, value: _elwise(value, self, mode="LT").astype("bool")`. -/
def __gt__ (self value : Tensor) : Except Err Tensor × List PrimOp :=
  let (r, t) := _elwise2 value self .LT
  (r.map (astype · .bool_), t)

/-- `__ge__ = lambda self, value: _elwise(value, self, mode="LEQ").astype("bool")`. -/
def __ge__ (self value : Tensor) : Except Err Tensor × List PrimOp :=
  let (r, t) := _elwise2 value self .LEQ
  (r.map (astype · .bool_), t)

/-- `__eq__ = lambda self, value: _elwise(self, value, mode="EQ").astype("bool")`. -/
def __eq__ (self value : Tensor) : Except Err Tensor × List PrimOp :=
  let (r, t) := _elwise2 self value .EQ
  (r.map (astype · .bool_), t)

/-- `__ne__ = lambda self, value: _elwise(_elwise(self, value, mode="EQ").astype("bool"), mode="NOT")`. -/
def __ne__ (self value : Tensor) : Except Err Tensor × List PrimOp :=
  let (r, t) := __eq__ self value
  match r with
  | .error e => (.error e, t)
  | .ok e =>
      let (r2, t2) := _elwise1 e .NOT
      (r2, t ++ t2)

/-! ### Logical operators: the bool guard -/

/-- `_logical_unary_elwise(mode)`: raises `TypeError` unless the operand is a
bool tensor, then issues the unary elemwise primitive. -/
def _logical_unary_elwise (mode : ElwiseMode) (self : Tensor) :
    Except Err Tensor × List PrimOp :=
  if self.dtype ≠ .bool_ then (.error (.boolUnaryRequired mode), [])
  else _elwise1 self mode

/-- `_logical_binary_elwise(mode, rev)`: raises `TypeError` unless both
operands are bool tensors, then issues the binary elemwise primitive (with
operands swapped for the reversed variant). -/
def _logical_binary_elwise (mode : ElwiseMode) (rev : Bool) (self value : Tensor) :
    Except Err Tensor × List PrimOp :=
  if self.dtype ≠ .bool_ ∨ value.dtype ≠ .bool_ then
    (.error (.boolBinaryRequired mode), [])
  else if rev then _elwise2 value self mode
  else _elwise2 self value mode

/-! ### Reductions -/

/-- Fold of a reduction mode over one slice of elements (`n` is the extent of
the reduced axis, used by MEAN). -/
def reduceFold (mode : ReduceMode) (n : Nat) (l : List Int) : Int :=
  match mode with
  | .SUM => l.sum
  | .PRODUCT => l.prod
  | .MIN => l.foldr min 0
  | .MAX => l.foldr max 0
  | .MEAN => l.sum / (n : Int)

/-- Kernel of `builtin.Reduce(mode=mode, axis=axis)` (external collaborator):
collapses the given axis, viewing the data as `outer × mid × inner`. -/
def reduceKernel (mode : ReduceMode) (axis : Nat) (t : Tensor) : Except Err Tensor :=
  if axis < t.shape.length then
    let mid := t.shape.getD axis 1
    let inner := (t.shape.drop (axis + 1)).prod
    let outer := (t.shape.take axis).prod
    let data := (List.range (outer * inner)).map fun oi =>
      reduceFold mode mid ((List.range mid).map fun m =>
        t.data.getD ((oi / inner * mid + m) * inner + oi % inner) 0)
    .ok ⟨t.shape.eraseIdx axis, t.dtype, data⟩
  else .error .kernelFailure

/-- `_reduce(mode)`: the mixin's reduction method.  With `axis=None` the
tensor is first flattened (`self.flatten()`, i.e. `reshape(-1)`) and the
primitive reduce is applied over axis 0; with an explicit axis the primitive
is applied directly. -/
def _reduce (mode : ReduceMode) (self : Tensor) : Option Nat → Except Err Tensor × List PrimOp
  | none =>
      let (f, t1) := self.flatten
      match f with
      | .error e => (.error e, t1)
      | .ok inp => (reduceKernel mode 0 inp, t1 ++ [.reduce mode 0])
  | some axis => (reduceKernel mode axis self, [.reduce mode axis])

/-- `sum = _reduce("SUM")`. -/
def Tensor.sum (t : Tensor) (axis : Option Nat) : Except Err Tensor × List PrimOp :=
  _reduce .SUM t axis

/-! ### Wrapper objects and in-place operators

Python wrapper objects are references into a store: a wrapper is an index
`x`, and `self.__wrapped__` is the tensor held at that index.  `_reset`
replaces the slot's content; returning `self` returns the same index. -/

/-- The heap of live wrapper objects: slot `x` holds wrapper `x`'s
`__wrapped__` tensor. -/
abbrev Store := List Tensor

/-- Outcome of a Python binary dunder call: a value, the `NotImplemented`
sentinel, or a raised exception. -/
inductive OpOutcome where
  | notImplemented
  | ok (t : Tensor)
  | raised (e : Err)
  deriving DecidableEq, Repr

/-- `_inplace(f)`: compute the non-mutating op `f(self, value)` first; if it
raised, the exception propagates and the store is untouched; if it returned
the `NotImplemented` sentinel, raise `NotImplementedError` with the store
untouched; otherwise `self._reset(result)` rebinds slot `x` to the fully
computed result and `self` (the same index) is returned. -/
def _inplace (f : Tensor → Tensor → OpOutcome) (store : Store) (x : Nat)
    (value : Tensor) : Store × Except Err Nat :=
  match f (store.getD x default) value with
  | .raised e => (store, .error e)
  | .notImplemented => (store, .error .notImplementedErr)
  | .ok r => (store.set x r, .ok x)

/-- `__add__` (on the wrapped tensors) as a dunder outcome, for use by
`__iadd__ = _inplace(__add__)`. -/
def addOutcome (a b : Tensor) : OpOutcome :=
  match (_elwise2 a b .ADD).1 with
  | .ok t => .ok t
  | .error e => .raised e

/-- `__iadd__ = _inplace(__add__)`. -/
def __iadd__ (store : Store) (x : Nat) (value : Tensor) : Store × Except Err Nat :=
  _inplace addOutcome store x value

/-- `__pos__ = lambda self: self`: returns the very same wrapper object,
touching neither the store nor the primitive-op layer. -/
def __pos__ (store : Store) (x : Nat) : Store × Nat × List PrimOp :=
  (store, x, [])

/-! ### Numeric conversions and `__len__` -/

/-- `item()`: `assert self.size == 1; return self.numpy().item()` — the single
element, or a "not a scalar" failure. -/
def Tensor.item (t : Tensor) : Except Err Int :=
  if t.size = 1 then .ok (t.data.headD 0) else .error .scalarRequired

/-- `__int__ = lambda self: int(self.item())` (elements are modelled as
integers, so the native conversion of the single element is the element). -/
def __int__ (t : Tensor) : Except Err Int := t.item

/-- `__bool__ = lambda self: bool(self.item())`. -/
def __bool__ (t : Tensor) : Except Err Bool := t.item.map (· != 0)

/-- `__float__ = lambda self: float(self.item())`. -/
def __float__ (t : Tensor) : Except Err Int := t.item

/-- `__complex__ = lambda self: complex(self.item())`. -/
def __complex__ (t : Tensor) : Except Err Int := t.item

/-- `__index__ = lambda self: self.item().__index__()`. -/
def __index__ (t : Tensor) : Except Err Int := t.item

/-- `__len__`: `shape = self.shape; if shape: return int(shape[0]); raise
TypeError("ndim is 0")`. -/
def __len__ (t : Tensor) : Except Err Nat :=
  match t.shape with
  | [] => .error .zeroRank
  | d :: _ => .ok d

/-! ### `TensorWrapper.__init__` -/

/-- Raw array-like construction data handed to the device/dtype conversion
collaborator. -/
structure RawData where
  shape : List Nat
  dtype : DType
  data : List Int
  deriving DecidableEq, Repr

/-- `as_raw_tensor(data, dtype, device)` (external collaborator):
materializes a brand-new underlying tensor from raw data. -/
def as_raw_tensor (r : RawData) : Tensor := ⟨r.shape, r.dtype, r.data⟩

/-- The possible `data` arguments of `TensorWrapper.__init__`: another
wrapper, a primitive tensor, raw array-like data, or `None`. -/
inductive InitData where
  | wrapper (wrapped : Tensor)
  | tensorBase (t : Tensor)
  | raw (r : RawData)
  | noneData
  deriving DecidableEq, Repr

/-- `TensorWrapper.__init__`: a wrapper argument is unwrapped and its
underlying reference shared; a primitive tensor is adopted directly;
otherwise `assert data is not None` fires for `None`, and any other raw data
is materialized through `as_raw_tensor`.  The boolean records whether the
conversion collaborator was invoked. -/
def TensorWrapper.init : InitData → Except Err Tensor × Bool
  | .wrapper w => (.ok w, false)
  | .tensorBase t => (.ok t, false)
  | .noneData => (.error .noneNotValid, false)
  | .raw r => (.ok (as_raw_tensor r), true)

/-! ## Helper lemmas -/

/-- Scanning a prefix of nonnegative entries neither raises nor changes the
`unspec_axis` accumulator; it only advances the index. -/
theorem validateShape_nonneg_scan (pre : List Int) (l : List Int) (i : Nat)
    (u : Option Nat) (h : ∀ s ∈ pre, 0 ≤ s) :
    validateShape (pre ++ l) i u = validateShape l (i + pre.length) u := by
  induction pre generalizing i with
  | nil => simp
  | cons a pre ih =>
      have ha : ¬ a < 0 := not_lt.mpr (h a (by simp))
      have harr : i + 1 + pre.length = i + (pre.length + 1) := by omega
      simp only [List.cons_append, validateShape, ha, if_false, List.append_eq]
      rw [ih (i + 1) (fun s hs => h s (by simp [hs])), harr]
      rfl

/-- A list of nonnegative entries validates successfully, returning the
accumulator unchanged. -/
theorem validateShape_nonneg (l : List Int) (i : Nat) (u : Option Nat)
    (h : ∀ s ∈ l, 0 ≤ s) : validateShape l i u = .ok u := by
  have := validateShape_nonneg_scan l [] i u h
  simpa [validateShape] using this

/-- An entry `< -1` at the head raises the index/value error regardless of the
accumulator. -/
theorem validateShape_badHead (rest : List Int) (i : Nat) (u : Option Nat)
    (v : Int) (hv : v < -1) :
    validateShape (v :: rest) i u = .error (.badShapeValue i v) := by
  have h1 : v < 0 := by omega
  have h2 : v ≠ -1 := by omega
  simp [validateShape, h1, h2]

/-- A `-1` at the head with the accumulator already set raises the
multiple-`-1` error naming both indices. -/
theorem validateShape_secondNegOne (rest : List Int) (i j : Nat) :
    validateShape (-1 :: rest) i (some j) = .error (.multipleNegOne j i) := by
  norm_num [validateShape]

/-- A `-1` at the head with an empty accumulator records the current index and
continues. -/
theorem validateShape_firstNegOne (rest : List Int) (i : Nat) :
    validateShape (-1 :: rest) i none = validateShape rest (i + 1) (some i) := by
  norm_num [validateShape]

/-! ## Claim theorems -/

/-- C1 (counterexample): the claim asserts that any shape containing an entry
less than `-1` fails with a validation error identifying that index and
value.  The shape `[-1, -1, -2]` contains the entry `-2` at index 2, yet
`_reshape` fails with the multiple-`-1` error naming indices 0 and 1, which
is not the index/value error for index 2 and value `-2`. -/
theorem C1_reshape_first_violation_counterexample :
    (_reshape ⟨[2], .int32, [1, 2]⟩ [-1, -1, -2]).1
      = .error (.multipleNegOne 0 1) ∧
    Err.multipleNegOne 0 1 ≠ Err.badShapeValue 2 (-2) := by
  exact ⟨rfl, by decide⟩

/-- C1 (amended): `_reshape`'s validation scans the shape left to right and
reports the first violation.  (1) an entry `< -1` preceded only by
nonnegative entries fails with the index/value error; (2) an entry `< -1`
preceded by nonnegative entries and a single `-1` still fails with its
index/value error; (3) a second `-1` preceded otherwise only by nonnegative
entries fails with the error naming the indices of both `-1` entries; (4) a
shape of nonnegative entries passes validation and issues exactly one
primitive reshape with no inferred axis; (5) a shape with exactly one `-1`
and all other entries nonnegative passes validation and issues exactly one
primitive reshape parameterized by the index of the `-1`. -/
theorem C1_reshape_validation (x : Tensor) :
    (∀ pre v rest, (∀ s ∈ pre, (0 : Int) ≤ s) → v < -1 →
       _reshape x (pre ++ (v :: rest))
         = (.error (.badShapeValue pre.length v), [])) ∧
    (∀ p1 p2 v rest, (∀ s ∈ p1 ++ p2, (0 : Int) ≤ s) → v < -1 →
       _reshape x (p1 ++ (-1 :: (p2 ++ (v :: rest))))
         = (.error (.badShapeValue (p1.length + 1 + p2.length) v), [])) ∧
    (∀ p1 p2 rest, (∀ s ∈ p1 ++ p2, (0 : Int) ≤ s) →
       _reshape x (p1 ++ (-1 :: (p2 ++ (-1 :: rest))))
         = (.error (.multipleNegOne p1.length (p1.length + 1 + p2.length)), [])) ∧
    (∀ shape, (∀ s ∈ shape, (0 : Int) ≤ s) →
       (_reshape x shape).2 = [.const shape, .reshape none]) ∧
    (∀ p1 p2, (∀ s ∈ p1 ++ p2, (0 : Int) ≤ s) →
       (_reshape x (p1 ++ (-1 :: p2))).2
         = [.const (p1 ++ (-1 :: p2)), .reshape (some p1.length)]) := by
  refine ⟨?_, ?_, ?_, ?_, ?_⟩
  · intro pre v rest h hv
    have h1 : validateShape (pre ++ (v :: rest)) 0 none
        = .error (.badShapeValue pre.length v) := by
      rw [validateShape_nonneg_scan pre _ 0 none h, Nat.zero_add,
        validateShape_badHead _ _ _ _ hv]
    simp [_reshape, h1]
  · intro p1 p2 v rest h hv
    have hp1 : ∀ s ∈ p1, (0 : Int) ≤ s := fun s hs => h s (by simp [hs])
    have hp2 : ∀ s ∈ p2, (0 : Int) ≤ s := fun s hs => h s (by simp [hs])
    have h1 : validateShape (p1 ++ (-1 :: (p2 ++ (v :: rest)))) 0 none
        = .error (.badShapeValue (p1.length + 1 + p2.length) v) := by
      rw [validateShape_nonneg_scan p1 _ 0 none hp1, Nat.zero_add,
        validateShape_firstNegOne, validateShape_nonneg_scan p2 _ _ _ hp2,
        validateShape_badHead _ _ _ _ hv]
    simp [_reshape, h1]
  · intro p1 p2 rest h
    have hp1 : ∀ s ∈ p1, (0 : Int) ≤ s := fun s hs => h s (by simp [hs])
    have hp2 : ∀ s ∈ p2, (0 : Int) ≤ s := fun s hs => h s (by simp [hs])
    have h1 : validateShape (p1 ++ (-1 :: (p2 ++ (-1 :: rest)))) 0 none
        = .error (.multipleNegOne p1.length (p1.length + 1 + p2.length)) := by
      rw [validateShape_nonneg_scan p1 _ 0 none hp1, Nat.zero_add,
        validateShape_firstNegOne, validateShape_nonneg_scan p2 _ _ _ hp2,
        validateShape_secondNegOne]
    simp [_reshape, h1]
  · intro shape h
    have h1 : validateShape shape 0 none = .ok none :=
      validateShape_nonneg shape 0 none h
    simp [_reshape, h1]
  · intro p1 p2 h
    have hp1 : ∀ s ∈ p1, (0 : Int) ≤ s := fun s hs => h s (by simp [hs])
    have hp2 : ∀ s ∈ p2, (0 : Int) ≤ s := fun s hs => h s (by simp [hs])
    have h1 : validateShape (p1 ++ (-1 :: p2)) 0 none = .ok (some p1.length) := by
      rw [validateShape_nonneg_scan p1 _ 0 none hp1, Nat.zero_add,
        validateShape_firstNegOne, validateShape_nonneg p2 _ _ hp2]
    simp [_reshape, h1]

/-- C1 (witness): the amended theorem applied at concrete shapes. -/
theorem C1_reshape_validation_witness :
    _reshape ⟨[2], .int32, [1, 2]⟩ [2, -3] = (.error (.badShapeValue 1 (-3)), []) ∧
    _reshape ⟨[2], .int32, [1, 2]⟩ [2, -1, -1] = (.error (.multipleNegOne 1 2), []) ∧
    (_reshape ⟨[2], .int32, [1, 2]⟩ [-1, 2]).2 = [.const [-1, 2], .reshape (some 0)] := by
  refine ⟨?_, ?_, ?_⟩
  · simpa using (C1_reshape_validation ⟨[2], .int32, [1, 2]⟩).1 [2] (-3) []
      (by decide) (by decide)
  · simpa using (C1_reshape_validation ⟨[2], .int32, [1, 2]⟩).2.2.1 [2] [] []
      (by decide)
  · simpa using (C1_reshape_validation ⟨[2], .int32, [1, 2]⟩).2.2.2.2 [] [2]
      (by decide)

/-- Truth-bit of a 0/1 indicator is the indicator itself. -/
theorem toBit_if (c : Prop) [Decidable c] :
    toBit (if c then 1 else 0) = if c then 1 else 0 := by
  split <;> norm_num [toBit]

/-- `flatten` (= `reshape(-1)`) always succeeds: the result is the rank-1
tensor carrying the same data, with extent `size`, produced by one `Const`
and one inferred-axis `Reshape`. -/
theorem flatten_ok (x : Tensor) :
    x.flatten = (.ok ⟨[x.size], x.dtype, x.data⟩, [.const [-1], .reshape (some 0)]) := by
  norm_num [Tensor.flatten, _reshape, validateShape, reshapeKernel, resolveShape,
    Nat.mod_one, Nat.div_one]

/-- C2: `a != b` is computed as elementwise NOT of the boolean-cast result of
the elementwise EQ primitive: the `__eq__` result `e` is boolean-typed,
`__ne__` succeeds with exactly the elementwise negation of `e`'s data, and the
primitive trace of `__ne__` is `[EQ, NOT]` — in particular no dedicated
not-equal (`NEQ`) primitive is invoked. -/
theorem C2_ne_is_not_eq (a b : Tensor) (h : a.shape = b.shape) :
    (∃ e, (__eq__ a b).1 = .ok e ∧ e.dtype = .bool_ ∧
       (__ne__ a b).1
         = .ok ⟨e.shape, .bool_, e.data.map fun v => if v = 0 then 1 else 0⟩) ∧
    (__ne__ a b).2 = [.elemwise .EQ, .elemwise .NOT] ∧
    PrimOp.elemwise .NEQ ∉ (__ne__ a b).2 := by
  have hk : elwiseBinKernel .EQ a b
      = .ok ⟨a.shape, promote a.dtype b.dtype,
          List.zipWith (fun x y => if x = y then 1 else 0) a.data b.data⟩ := by
    simp [elwiseBinKernel, h]
  refine ⟨⟨astype ⟨a.shape, promote a.dtype b.dtype,
      List.zipWith (fun x y => if x = y then 1 else 0) a.data b.data⟩ .bool_,
      ?_, rfl, ?_⟩, ?_, ?_⟩
  · simp [__eq__, _elwise2, hk, Except.map]
  · simp [__ne__, __eq__, _elwise2, hk, _elwise1, elwiseUnKernel, astype,
      Except.map, List.map_map, Function.comp]
  · simp [__ne__, __eq__, _elwise2, hk, _elwise1, Except.map, astype]
  · simp [__ne__, __eq__, _elwise2, hk, _elwise1, Except.map, astype]

/-- C2 (witness): `__ne__` on `[1,2]` vs `[1,3]` yields `[false, true]`
through the EQ-then-NOT pipeline. -/
theorem C2_ne_witness :
    (__ne__ ⟨[2], .int32, [1, 2]⟩ ⟨[2], .int32, [1, 3]⟩).1
      = .ok ⟨[2], .bool_, [0, 1]⟩ ∧
    (__ne__ ⟨[2], .int32, [1, 2]⟩ ⟨[2], .int32, [1, 3]⟩).2
      = [.elemwise .EQ, .elemwise .NOT] := by
  have h := C2_ne_is_not_eq ⟨[2], .int32, [1, 2]⟩ ⟨[2], .int32, [1, 3]⟩ rfl
  exact ⟨rfl, h.2.1⟩

/-- C3: a reduction called with no axis first flattens (one `Const` plus one
inferred-axis `Reshape`) and then applies the primitive reduce over axis 0 of
the flattened tensor, for every reduction mode; consequently reducing the
flattened tensor with no axis gives the same result as reducing the original
with no axis, and in particular `x.flatten().sum() = x.sum()`. -/
theorem C3_reduce_no_axis (mode : ReduceMode) (x : Tensor) :
    (∃ f, x.flatten.1 = .ok f ∧ f = ⟨[x.size], x.dtype, x.data⟩ ∧
       _reduce mode x none
         = (reduceKernel mode 0 f,
            [.const [-1], .reshape (some 0), .reduce mode 0]) ∧
       (_reduce mode f none).1 = (_reduce mode x none).1 ∧
       (Tensor.sum f none).1 = (Tensor.sum x none).1) := by
  refine ⟨⟨[x.size], x.dtype, x.data⟩, ?_, rfl, ?_, ?_, ?_⟩
  · rw [flatten_ok]
  · simp [_reduce, flatten_ok]
  · simp [_reduce, flatten_ok, Tensor.size]
  · simp [Tensor.sum, _reduce, flatten_ok, Tensor.size]

/-- C4: `_inplace(f)` computes the non-mutating op first.  If it returns the
`NotImplemented` sentinel, the in-place call raises `NotImplementedError` and
the store is untouched (no observable mutation); if it raises, the exception
propagates with the store untouched; otherwise slot `x` is rebound to the
fully computed result and the very same wrapper `x` is returned.  For
`__iadd__` on same-shape operands, the slot ends up holding `old_x + y`
elementwise. -/
theorem C4_inplace_semantics (f : Tensor → Tensor → OpOutcome) (s : Store)
    (x : Nat) (v : Tensor) :
    (f (s.getD x default) v = .notImplemented →
       _inplace f s x v = (s, .error .notImplementedErr)) ∧
    (∀ e, f (s.getD x default) v = .raised e →
       _inplace f s x v = (s, .error e)) ∧
    (∀ r, f (s.getD x default) v = .ok r →
       _inplace f s x v = (s.set x r, .ok x)) ∧
    ((s.getD x default).shape = v.shape →
       __iadd__ s x v
         = (s.set x ⟨(s.getD x default).shape,
             promote (s.getD x default).dtype v.dtype,
             List.zipWith (· + ·) (s.getD x default).data v.data⟩, .ok x)) := by
  refine ⟨?_, ?_, ?_, ?_⟩
  · intro h; simp only [_inplace]; rw [h]
  · intro e h; simp only [_inplace]; rw [h]
  · intro r h; simp only [_inplace]; rw [h]
  · intro h
    simp only [__iadd__, _inplace, addOutcome, _elwise2, elwiseBinKernel]
    rw [if_pos h]

/-- C4 (witness): a sentinel-returning base op leaves the store unchanged and
raises; `__iadd__` rebinds slot 0 to the elementwise sum and returns
wrapper 0. -/
theorem C4_inplace_witness :
    _inplace (fun _ _ => .notImplemented) [⟨[1], .int32, [7]⟩] 0 ⟨[1], .int32, [1]⟩
      = ([⟨[1], .int32, [7]⟩], .error .notImplementedErr) ∧
    __iadd__ [⟨[2], .int32, [1, 2]⟩] 0 ⟨[2], .int32, [10, 20]⟩
      = ([⟨[2], .int32, [11, 22]⟩], .ok 0) := by
  constructor
  · exact (C4_inplace_semantics (fun _ _ => .notImplemented)
      [⟨[1], .int32, [7]⟩] 0 ⟨[1], .int32, [1]⟩).1 rfl
  · have := (C4_inplace_semantics addOutcome
      [⟨[2], .int32, [1, 2]⟩] 0 ⟨[2], .int32, [10, 20]⟩).2.2.2 rfl
    simpa using this

/-- C5: the logical operators guard both operands (or the single operand) for
the boolean dtype and fail with the type-mismatch error *before* any
primitive is invoked (the primitive trace is empty), for every mode and for
both the direct and the reversed binary variant. -/
theorem C5_logical_bool_guard (mode : ElwiseMode) (rev : Bool) (a b : Tensor) :
    (¬(a.dtype = .bool_ ∧ b.dtype = .bool_) →
       _logical_binary_elwise mode rev a b = (.error (.boolBinaryRequired mode), [])) ∧
    (a.dtype ≠ .bool_ →
       _logical_unary_elwise mode a = (.error (.boolUnaryRequired mode), [])) := by
  constructor
  · intro h
    have h' : a.dtype ≠ .bool_ ∨ b.dtype ≠ .bool_ := by tauto
    simp only [_logical_binary_elwise]
    rw [if_pos h']
  · intro h
    simp only [_logical_unary_elwise]
    rw [if_pos h]

/-- C5 (witness): AND on an int/bool pair and NOT on an int tensor both fail
with the type-mismatch error and an empty primitive trace. -/
theorem C5_logical_guard_witness :
    _logical_binary_elwise .AND false ⟨[1], .int32, [1]⟩ ⟨[1], .bool_, [1]⟩
      = (.error (.boolBinaryRequired .AND), []) ∧
    _logical_unary_elwise .NOT ⟨[1], .int32, [1]⟩
      = (.error (.boolUnaryRequired .NOT), []) := by
  constructor
  · exact (C5_logical_bool_guard .AND false ⟨[1], .int32, [1]⟩
      ⟨[1], .bool_, [1]⟩).1 (by decide)
  · exact (C5_logical_bool_guard .NOT false ⟨[1], .int32, [1]⟩
      ⟨[1], .bool_, [1]⟩).2 (by decide)

/-- C6: the numeric conversions all delegate to `item()`: when the tensor
holds exactly one element they succeed with the native conversion of that
element, and otherwise they all fail with the "not a scalar" error. -/
theorem C6_conversions (t : Tensor) :
    (t.size = 1 →
       __int__ t = .ok (t.data.headD 0) ∧
       __bool__ t = .ok (t.data.headD 0 != 0) ∧
       __float__ t = .ok (t.data.headD 0) ∧
       __complex__ t = .ok (t.data.headD 0) ∧
       __index__ t = .ok (t.data.headD 0)) ∧
    (t.size ≠ 1 →
       __int__ t = .error .scalarRequired ∧
       __bool__ t = .error .scalarRequired ∧
       __float__ t = .error .scalarRequired ∧
       __complex__ t = .error .scalarRequired ∧
       __index__ t = .error .scalarRequired) := by
  constructor <;> intro h <;>
    simp [__int__, __bool__, __float__, __complex__, __index__, Tensor.item, h,
      Except.map]

/-- C6 (witness): a tensor holding `[5]` with shape `(1,)` converts to the
integer 5 (and to `True`); a shape-`(2,)` tensor fails with the scalar
error. -/
theorem C6_conversions_witness :
    __int__ ⟨[1], .int32, [5]⟩ = .ok 5 ∧
    __int__ ⟨[2], .int32, [5, 6]⟩ = .error .scalarRequired ∧
    __bool__ ⟨[1], .int32, [5]⟩ = .ok true := by
  have h1 := (C6_conversions ⟨[1], .int32, [5]⟩).1 (by decide)
  have h2 := (C6_conversions ⟨[2], .int32, [5, 6]⟩).2 (by decide)
  exact ⟨h1.1, h2.1, by simpa using h1.2.1⟩

/-- C7: `__len__` returns the first dimension's extent for rank ≥ 1 and fails
with the zero-rank error exactly on rank 0. -/
theorem C7_len (t : Tensor) :
    (∀ d rest, t.shape = d :: rest → __len__ t = .ok d) ∧
    (t.shape = [] → __len__ t = .error .zeroRank) := by
  constructor
  · intro d rest h; simp [__len__, h]
  · intro h; simp [__len__, h]

/-- C7 (witness): `len` on shape `(3, 4)` is 3; on shape `()` it is the
zero-rank error. -/
theorem C7_len_witness :
    __len__ ⟨[3, 4], .int32, List.replicate 12 0⟩ = .ok 3 ∧
    __len__ ⟨[], .int32, [7]⟩ = .error .zeroRank :=
  ⟨(C7_len _).1 3 [4] rfl, (C7_len _).2 rfl⟩

/-- C8: constructing a `TensorWrapper` from `None` fails with the explicit
construction error (and invokes no conversion); raw data is materialized into
a brand-new tensor through the `as_raw_tensor` collaborator; another wrapper
is unwrapped and its underlying reference shared with no conversion; a
primitive tensor is adopted directly. -/
theorem C8_init_none_fails (w t : Tensor) (r : RawData) :
    TensorWrapper.init .noneData = (.error .noneNotValid, false) ∧
    TensorWrapper.init (.raw r) = (.ok (as_raw_tensor r), true) ∧
    TensorWrapper.init (.wrapper w) = (.ok w, false) ∧
    TensorWrapper.init (.tensorBase t) = (.ok t, false) :=
  ⟨rfl, rfl, rfl, rfl⟩

/-- C9: `__pos__` returns the very same wrapper object (the same reference
`x`), leaves the store untouched and invokes no primitive operation. -/
theorem C9_pos_identity (s : Store) (x : Nat) : __pos__ s x = (s, x, []) := rfl

/-- C10: `__gt__` and `__ge__` are computed as the LT/LEQ primitive with the
operand order swapped — the whole computation coincides with `__lt__`/`__le__`
on the swapped operands, the trace holds exactly one LT/LEQ primitive and no
GT/GEQ primitive, every successful result is boolean-typed via `astype`, and
on same-shape operands `a > b` is elementwise `b < a`. -/
theorem C10_gt_ge_swap (a b : Tensor) :
    __gt__ a b = __lt__ b a ∧ __ge__ a b = __le__ b a ∧
    (__gt__ a b).2 = [.elemwise .LT] ∧ (__ge__ a b).2 = [.elemwise .LEQ] ∧
    PrimOp.elemwise .GT ∉ (__gt__ a b).2 ∧
    PrimOp.elemwise .GEQ ∉ (__ge__ a b).2 ∧
    (∀ r, (__gt__ a b).1 = .ok r → r.dtype = .bool_) ∧
    (∀ r, (__ge__ a b).1 = .ok r → r.dtype = .bool_) ∧
    (a.shape = b.shape →
       (__gt__ a b).1
         = .ok ⟨b.shape, .bool_,
             List.zipWith (fun y x => if y < x then 1 else 0) b.data a.data⟩) := by
  refine ⟨rfl, rfl, rfl, rfl, ?_, ?_, ?_, ?_, ?_⟩
  · simp [__gt__, _elwise2]
  · simp [__ge__, _elwise2]
  · intro r h
    simp only [__gt__, _elwise2] at h
    cases hk : elwiseBinKernel .LT b a with
    | error e => rw [hk] at h; simp [Except.map] at h
    | ok v =>
        rw [hk] at h
        simp [Except.map] at h
        rw [← h]
        rfl
  · intro r h
    simp only [__ge__, _elwise2] at h
    cases hk : elwiseBinKernel .LEQ b a with
    | error e => rw [hk] at h; simp [Except.map] at h
    | ok v =>
        rw [hk] at h
        simp [Except.map] at h
        rw [← h]
        rfl
  · intro h
    have hk : elwiseBinKernel .LT b a
        = .ok ⟨b.shape, promote b.dtype a.dtype,
            List.zipWith (fun x y => if x < y then 1 else 0) b.data a.data⟩ := by
      simp [elwiseBinKernel, h.symm]
    simp [__gt__, _elwise2, hk, Except.map, astype, List.map_zipWith, toBit_if]

/-- C10 (witness): on `[1,2]` vs `[2,1]` the greater-than operator yields
`[false, true]` through the swapped LT primitive. -/
theorem C10_gt_witness :
    (__gt__ ⟨[2], .int32, [1, 2]⟩ ⟨[2], .int32, [2, 1]⟩).1
      = .ok ⟨[2], .bool_, [0, 1]⟩ := by
  have h := (C10_gt_ge_swap ⟨[2], .int32, [1, 2]⟩
    ⟨[2], .int32, [2, 1]⟩).2.2.2.2.2.2.2.2 rfl
  simpa using h

end TensorWrapperSpec
